import Mathlib

/-!
Shallow embedding of the scoring/decision engine of `src/freshbites/app.py`
(FreshBites supplier-reliability and stock-health app).

Numeric cells coming from the two CSV tables are modelled as `Option ℚ`
(`none` = a missing / unparseable cell, i.e. pandas `NaN`).  The one place
where pandas float arithmetic can produce an infinity — the element-wise
division on lines 57 and 78 — is modelled by `PVal`, a rational extended
with `nan`, `posInf` and `negInf`, so that the source pipeline
`.replace([np.inf, -np.inf], np.nan).fillna(0.0)` can be traced step by
step.  Exact decimal constants (`74.99`, `-0.1`, …) are taken as rationals.
-/

/-- Result of a pandas float operation: a finite rational, `NaN`, `+inf`
or `-inf`. -/
inductive PVal where
  | num : ℚ → PVal
  | nan : PVal
  | posInf : PVal
  | negInf : PVal
deriving DecidableEq, Repr

/-- IEEE-style division of two finite-or-NaN cells, as pandas performs it
element-wise: `x / 0` is `±inf` for `x ≠ 0`, `0 / 0` is `NaN`, and any
`NaN` operand propagates. -/
def pdDiv : Option ℚ → Option ℚ → PVal
  | some a, some b =>
      if b = 0 then
        if a = 0 then .nan else if 0 < a then .posInf else .negInf
      else .num (a / b)
  | _, _ => .nan

/-- `.replace([np.inf, -np.inf], np.nan)` (app.py lines 57, 78). -/
def PVal.replaceInfNan : PVal → PVal
  | .posInf => .nan
  | .negInf => .nan
  | v => v

/-- `.fillna(0.0)` applied after the infinities were replaced: every
non-finite value becomes exactly `0`. -/
def PVal.fillna0 : PVal → ℚ
  | .num a => a
  | _ => 0

/-- One row of the supplier table (the eight required columns,
app.py line 39).  `priority` is free-form and passed through. -/
structure SupplierRow where
  supplier_id : Option ℚ
  supplier_name : String
  total_deliveries : Option ℚ
  on_time_deliveries : Option ℚ
  avg_lead_time_days : Option ℚ
  price_index : Option ℚ
  priority : String
  is_backup : Bool
deriving Repr

/-- app.py line 57:
`(on_time / total).replace([inf,-inf], nan).fillna(0.0) * 100`. -/
def reliability_pct (on_time total : Option ℚ) : ℚ :=
  ((pdDiv on_time total).replaceInfNan).fillna0 * 100

/-- app.py lines 58-62: `pd.cut(pct, bins=[-0.1, 74.99, 89.99, 100],
labels=[...])`.  `pd.cut` is right-closed and returns `NaN` (here `none`)
outside the outermost bins. -/
def reliability_band (pct : ℚ) : Option String :=
  if -0.1 < pct ∧ pct ≤ 74.99 then some "Risk (<75%)"
  else if 74.99 < pct ∧ pct ≤ 89.99 then some "Watch (75-89%)"
  else if 89.99 < pct ∧ pct ≤ 100 then some "Reliable (90%+)"
  else none

/-- The supplier row augmented with its two derived fields
(app.py lines 56-62). -/
def scoreSupplier (s : SupplierRow) : SupplierRow × ℚ × Option String :=
  let pct := reliability_pct s.on_time_deliveries s.total_deliveries
  (s, pct, reliability_band pct)

/-- A Python `dict(zip(keys, vals))` built from row lists: on duplicate
keys the later entry wins, so lookup finds the last matching pair
(app.py lines 65-66). -/
def dictLookup {α : Type} (pairs : List (String × α)) (k : String) : Option α :=
  (pairs.reverse.find? (fun p => p.1 = k)).map Prod.snd

/-- app.py line 65: `rel_map = dict(zip(supplier_name, reliability_pct))`. -/
def rel_map (suppliers : List SupplierRow) : List (String × ℚ) :=
  suppliers.map (fun s => (s.supplier_name, reliability_pct s.on_time_deliveries s.total_deliveries))

/-- app.py line 66: `lt_map = dict(zip(supplier_name, avg_lead_time_days))`;
the stored value may itself be a missing cell. -/
def lt_map (suppliers : List SupplierRow) : List (String × Option ℚ) :=
  suppliers.map (fun s => (s.supplier_name, s.avg_lead_time_days))

/-- One row of the inventory table (the seven required columns,
app.py line 40). -/
structure InventoryRow where
  material : String
  current_stock : Option ℚ
  safety_stock : Option ℚ
  avg_daily_usage : Option ℚ
  primary_supplier : String
  backup_supplier : String
  lead_time_days : Option ℚ
deriving Repr

/-- app.py line 69: `inv["primary_supplier"].map(rel_map).fillna(0.0)` —
reliability of the primary supplier, `0` when the name is not in the map. -/
def primary_reliability (relm : List (String × ℚ)) (r : InventoryRow) : ℚ :=
  (dictLookup relm r.primary_supplier).getD 0

/-- app.py line 70: same lookup for the backup supplier. -/
def backup_reliability (relm : List (String × ℚ)) (r : InventoryRow) : ℚ :=
  (dictLookup relm r.backup_supplier).getD 0

/-- The fallback side of app.py lines 73-75:
`inv["primary_supplier"].map(lt_map).fillna(5)` — the supplier's stored
average lead time when the name is in the map and its cell is not missing,
otherwise `5`. -/
def ltFallback (ltm : List (String × Option ℚ)) (name : String) : ℚ :=
  match dictLookup ltm name with
  | some (some v) => v
  | _ => 5

/-- app.py lines 73-75: `np.where(lead_time_days.isna() | (lead_time_days <= 0),
fallback, lead_time_days)` — the record's own lead time when present and
positive, else the fallback above. -/
def lead_time_eff (ltm : List (String × Option ℚ)) (r : InventoryRow) : ℚ :=
  match r.lead_time_days with
  | some v => if v ≤ 0 then ltFallback ltm r.primary_supplier else v
  | none => ltFallback ltm r.primary_supplier

/-- app.py line 78: `(current_stock / avg_daily_usage).replace([inf,-inf],
nan).fillna(0.0)`. -/
def days_of_cover (r : InventoryRow) : ℚ :=
  ((pdDiv r.current_stock r.avg_daily_usage).replaceInfNan).fillna0

/-- app.py lines 79-85: `safety_stock + lead_time_days * avg_daily_usage`,
with `NaN` propagation through the arithmetic and the subsequent
`fillna(0)` (line 85) turning any `NaN` result into `0`. -/
def reorder_point (ltm : List (String × Option ℚ)) (r : InventoryRow) : ℚ :=
  match r.safety_stock, r.avg_daily_usage with
  | some s, some u => s + lead_time_eff ltm r * u
  | _, _ => 0

/-- app.py lines 82-86: `current_stock` after `pd.to_numeric` and
`fillna(0)` — the raw cell, with a missing value coerced to `0`. -/
def current_stock_eff (r : InventoryRow) : ℚ :=
  r.current_stock.getD 0

/-- numpy / pandas `.round(0)` on a rational: round to the nearest
integer, ties to the even neighbour (banker's rounding, as `np.round`
and Python's built-in `round` both do). -/
def roundHalfEven (q : ℚ) : ℤ :=
  let f := ⌊q⌋
  if q - f < 1/2 then f
  else if 1/2 < q - f then f + 1
  else if f % 2 = 0 then f else f + 1

/-- app.py line 89:
`(reorder_point - current_stock).clip(lower=0).round(0).astype(int)`. -/
def reorder_qty (ltm : List (String × Option ℚ)) (r : InventoryRow) : ℤ :=
  roundHalfEven (max 0 (reorder_point ltm r - current_stock_eff r))

/-- app.py line 93: `np.where(current_stock < safety_stock, "Low Stock",
"OK")`; the comparison uses the already-filled `current_stock`, while a
missing `safety_stock` compares as false (pandas `x < NaN`). -/
def stock_risk (r : InventoryRow) : String :=
  match r.safety_stock with
  | some s => if current_stock_eff r < s then "Low Stock" else "OK"
  | none => "OK"

/-- app.py line 94: `np.where(primary_reliability < 75, "Unreliable
Supplier", "OK")`. -/
def supply_risk (relm : List (String × ℚ)) (r : InventoryRow) : String :=
  if primary_reliability relm r < 75 then "Unreliable Supplier" else "OK"

/-- app.py line 95: `np.where((stock_risk != "OK") | (supply_risk != "OK"),
"⚠ Risk", "✅ OK")`. -/
def overall_risk (relm : List (String × ℚ)) (r : InventoryRow) : String :=
  if stock_risk r ≠ "OK" ∨ supply_risk relm r ≠ "OK" then "⚠ Risk" else "✅ OK"

/-- Python `f"{q:.1f}"` for the (non-negative) days-of-cover value: the
value rounded to one decimal, ties to even, printed with one digit after
the point. -/
def fmt1 (q : ℚ) : String :=
  let n := roundHalfEven (10 * q)
  toString (n / 10) ++ "." ++ toString ((n % 10).natAbs)

/-- app.py lines 100-106, the reorder check of `recommend`: when
`current_stock < reorder_point`, one sentence naming the reorder quantity,
the material and the target supplier — the backup (tagged "(backup)")
exactly when it is strictly more reliable than the primary. -/
def reorderRecs (relm : List (String × ℚ)) (ltm : List (String × Option ℚ))
    (r : InventoryRow) : List String :=
  if current_stock_eff r < reorder_point ltm r then
    let qty := reorder_qty ltm r
    let target :=
      if backup_reliability relm r > primary_reliability relm r then
        r.backup_supplier ++ " (backup)"
      else r.primary_supplier
    ["Reorder " ++ toString qty ++ " units of " ++ r.material ++ " from " ++ target ++ "."]
  else []

/-- app.py lines 107-111, the reliability check of `recommend`. -/
def reliabilityRecs (relm : List (String × ℚ)) (r : InventoryRow) : List String :=
  if primary_reliability relm r < 75 then
    if backup_reliability relm r > primary_reliability relm r then
      ["Switch supplier for " ++ r.material ++ " to " ++ r.backup_supplier ++ " (more reliable)."]
    else
      ["Keep primary for " ++ r.material ++ " but increase safety stock temporarily."]
  else []

/-- app.py lines 112-113, the cover-vs-lead-time check of `recommend`.
(The lead-time number is rendered via `toString`; Python would print a
float such as `3.0` — no claim depends on this sentence's text.) -/
def coverRecs (ltm : List (String × Option ℚ)) (r : InventoryRow) : List String :=
  if days_of_cover r < lead_time_eff ltm r then
    ["Increase safety stock for " ++ r.material ++ " (days of cover " ++
      fmt1 (days_of_cover r) ++ " < lead time " ++ toString (lead_time_eff ltm r) ++ ")."]
  else []

/-- The `recs` list built by `recommend` (app.py lines 98-113), in the
fixed order reorder / reliability / cover. -/
def recommendList (relm : List (String × ℚ)) (ltm : List (String × Option ℚ))
    (r : InventoryRow) : List String :=
  reorderRecs relm ltm r ++ reliabilityRecs relm r ++ coverRecs ltm r

/-- app.py line 114: `" ".join(recs) if recs else "No action needed."`. -/
def recommendation (relm : List (String × ℚ)) (ltm : List (String × Option ℚ))
    (r : InventoryRow) : String :=
  match recommendList relm ltm r with
  | [] => "No action needed."
  | recs => String.intercalate " " recs

/-- app.py line 39. -/
def required_sup_cols : List String :=
  ["supplier_id", "supplier_name", "total_deliveries", "on_time_deliveries",
   "avg_lead_time_days", "price_index", "priority", "is_backup"]

/-- app.py line 40. -/
def required_inv_cols : List String :=
  ["material", "current_stock", "safety_stock", "avg_daily_usage",
   "primary_supplier", "backup_supplier", "lead_time_days"]

/-- app.py line 43: the fixed message shown when a required column is
missing. -/
def schemaErrorMsg : String :=
  "Please provide valid CSVs with required columns (see sidebar)."

/-- The full per-run output of the engine: scored supplier rows and fully
derived inventory rows. -/
structure EngineOutput where
  scoredSuppliers : List (SupplierRow × ℚ × Option String)
  invDerived : List (InventoryRow × ℚ × ℚ × ℚ × ℚ × ℤ × String × String × String × String)
deriving Repr

/-- The engine body (app.py lines 56-116), run only after validation. -/
def runEngine (suppliers : List SupplierRow) (inventory : List InventoryRow) :
    EngineOutput :=
  let relm := rel_map suppliers
  let ltm := lt_map suppliers
  { scoredSuppliers := suppliers.map scoreSupplier
    invDerived := inventory.map (fun r =>
      (r, primary_reliability relm r, backup_reliability relm r,
       days_of_cover r, reorder_point ltm r, reorder_qty ltm r,
       stock_risk r, supply_risk relm r, overall_risk relm r,
       recommendation relm ltm r)) }

/-- app.py lines 42-44: if any required column is missing from either
table the run stops (`st.error` + `st.stop()`) with the fixed message
before any row is processed; otherwise the engine runs in full. -/
def validateAndRun (supCols invCols : List String)
    (suppliers : List SupplierRow) (inventory : List InventoryRow) :
    Except String EngineOutput :=
  if required_sup_cols.all (fun c => supCols.contains c) &&
     required_inv_cols.all (fun c => invCols.contains c) then
    .ok (runEngine suppliers inventory)
  else
    .error schemaErrorMsg

/-- Substring test on strings (used only in statements about the schema
error message). -/
def containsStr (hay needle : String) : Bool :=
  hay.toList.tails.any (fun t => needle.toList.isPrefixOf t)

/-- "Flour" scenario row from the default data: stock exactly at the
reorder point. -/
def invFlour : InventoryRow :=
  { material := "Flour", current_stock := some 50, safety_stock := some 20,
    avg_daily_usage := some 10, primary_supplier := "Supplier A",
    backup_supplier := "Supplier B", lead_time_days := some 3 }

/-- A row whose stock sits 0.3 units below its reorder point of 20. -/
def invGap : InventoryRow :=
  { material := "Flour", current_stock := some (19.7 : ℚ), safety_stock := some 10,
    avg_daily_usage := some 5, primary_supplier := "P", backup_supplier := "B",
    lead_time_days := some 2 }

/-- A row below its reorder point (5 < 10 + 3·2 = 16). -/
def invLow : InventoryRow :=
  { material := "Sugar", current_stock := some 5, safety_stock := some 10,
    avg_daily_usage := some 2, primary_supplier := "P", backup_supplier := "B",
    lead_time_days := some 3 }

/-- A row with its own positive lead-time override. -/
def invOwnLT : InventoryRow :=
  { material := "Yeast", current_stock := some 8, safety_stock := some 2,
    avg_daily_usage := some 1, primary_supplier := "S", backup_supplier := "T",
    lead_time_days := some 3 }

/-- A row with a missing lead-time cell. -/
def invNoLT : InventoryRow :=
  { material := "Salt", current_stock := some 8, safety_stock := some 2,
    avg_daily_usage := some 1, primary_supplier := "S", backup_supplier := "T",
    lead_time_days := none }

/-- A row with a zero lead-time cell. -/
def invZeroLT : InventoryRow :=
  { material := "Butter", current_stock := some 8, safety_stock := some 2,
    avg_daily_usage := some 1, primary_supplier := "S", backup_supplier := "T",
    lead_time_days := some 0 }

/-- The condition of the `np.where` on app.py line 73: the record's own
lead-time cell is missing or not positive. -/
def ltMissing (r : InventoryRow) : Prop :=
  r.lead_time_days = none ∨ ∃ v, r.lead_time_days = some v ∧ v ≤ 0

/-- The primary supplier's average lead time is unavailable: the name is
not in the map, or its stored cell is missing. -/
def ltUnavailable (ltm : List (String × Option ℚ)) (r : InventoryRow) : Prop :=
  dictLookup ltm r.primary_supplier = none ∨
  dictLookup ltm r.primary_supplier = some none

example : reliability_pct (some 18) (some 20) = 90 := by
  norm_num [reliability_pct, pdDiv, PVal.replaceInfNan, PVal.fillna0]

example : reliability_pct (some 3) (some 0) = 0 := by
  norm_num [reliability_pct, pdDiv, PVal.replaceInfNan, PVal.fillna0]

example : reliability_band 125 = none := by norm_num [reliability_band]

example : reliability_band 75 = some "Watch (75-89%)" := by
  norm_num [reliability_band]

section RoundLemmas

/-- `roundHalfEven` of a non-negative rational is non-negative. -/
theorem roundHalfEven_nonneg (x : ℚ) (h : 0 ≤ x) : 0 ≤ roundHalfEven x := by
  have hf : (0 : ℤ) ≤ ⌊x⌋ := Int.floor_nonneg.mpr h
  rw [roundHalfEven]
  split_ifs <;> omega

/-- `roundHalfEven` of a negative rational is non-positive. -/
theorem roundHalfEven_nonpos (x : ℚ) (h : x < 0) : roundHalfEven x ≤ 0 := by
  have hf : ⌊x⌋ < 0 := Int.floor_lt.mpr (by exact_mod_cast h)
  rw [roundHalfEven]
  split_ifs <;> omega

theorem roundHalfEven_zero : roundHalfEven 0 = 0 := by
  norm_num [roundHalfEven]

/-- Clipping to zero before rounding (what the code does) agrees with
rounding and then clipping to zero (what the spec says). -/
theorem roundHalfEven_max_zero (x : ℚ) :
    roundHalfEven (max 0 x) = max 0 (roundHalfEven x) := by
  rcases le_or_lt 0 x with h | h
  · rw [max_eq_right h, (max_eq_right (roundHalfEven_nonneg x h))]
  · rw [max_eq_left h.le, roundHalfEven_zero,
      max_eq_left (roundHalfEven_nonpos x h)]

end RoundLemmas

/-- C1 (counterexample): the code does not clamp: with 25 on-time
deliveries out of 20, `reliability_pct` is 125, violating the claimed
upper bound of 100. -/
theorem reliability_pct_exceeds_100_unclamped :
    100 < reliability_pct (some 25) (some 20) := by
  norm_num [reliability_pct, pdDiv, PVal.replaceInfNan, PVal.fillna0]

/-- C1 (amended): for any non-negative deliveries `0 ≤ reliability_pct`
holds unconditionally; `reliability_pct ≤ 100` holds whenever
`on_time_deliveries ≤ total_deliveries`; and the code performs no
clamping, so whenever `on_time` exceeds a positive `total` the
percentage exceeds 100. -/
theorem reliability_pct_bounds_when_consistent (ot tot : ℚ)
    (h0 : 0 ≤ ot) (ht0 : 0 ≤ tot) :
    0 ≤ reliability_pct (some ot) (some tot) ∧
    (ot ≤ tot → reliability_pct (some ot) (some tot) ≤ 100) ∧
    (0 < tot → tot < ot → 100 < reliability_pct (some ot) (some tot)) := by
  by_cases ht : tot = 0
  · subst ht
    refine ⟨?_, fun _ => ?_, fun h _ => absurd h (lt_irrefl 0)⟩ <;>
      simp only [reliability_pct, pdDiv, if_pos rfl] <;>
      split_ifs <;>
      norm_num [PVal.replaceInfNan, PVal.fillna0]
  · have htpos : 0 < tot := lt_of_le_of_ne ht0 (Ne.symm ht)
    have hpct : reliability_pct (some ot) (some tot) = ot / tot * 100 := by
      simp only [reliability_pct, pdDiv, if_neg ht, PVal.replaceInfNan, PVal.fillna0]
    have hdiv0 : 0 ≤ ot / tot := div_nonneg h0 htpos.le
    refine ⟨by rw [hpct]; nlinarith, ?_, ?_⟩
    · intro h1
      have hdiv : ot / tot ≤ 1 := (div_le_one htpos).mpr h1
      rw [hpct]; nlinarith
    · intro _ h2
      have hdiv : 1 < ot / tot := (one_lt_div htpos).mpr h2
      rw [hpct]; nlinarith

/-- C1 (witness): at 18 of 20 the percentage is within both bounds; at
the inconsistent 25 of 20 it is still non-negative but exceeds 100. -/
theorem reliability_pct_bounds_witness :
    (0 ≤ reliability_pct (some 18) (some 20) ∧
      reliability_pct (some 18) (some 20) ≤ 100) ∧
    (0 ≤ reliability_pct (some 25) (some 20) ∧
      100 < reliability_pct (some 25) (some 20)) :=
  ⟨⟨(reliability_pct_bounds_when_consistent 18 20 (by norm_num) (by norm_num)).1,
    (reliability_pct_bounds_when_consistent 18 20 (by norm_num) (by norm_num)).2.1
      (by norm_num)⟩,
   ⟨(reliability_pct_bounds_when_consistent 25 20 (by norm_num) (by norm_num)).1,
    (reliability_pct_bounds_when_consistent 25 20 (by norm_num) (by norm_num)).2.2
      (by norm_num) (by norm_num)⟩⟩

/-- C2: for the non-negative percentages the engine produces, the band is
the fixed three-bucket classification: `≤ 74.99` is Risk, `75–89.99` is
Watch, `90–100` is Reliable. -/
theorem reliability_band_three_buckets (pct : ℚ) (h0 : 0 ≤ pct) :
    (pct ≤ 74.99 → reliability_band pct = some "Risk (<75%)") ∧
    (75 ≤ pct → pct ≤ 89.99 → reliability_band pct = some "Watch (75-89%)") ∧
    (90 ≤ pct → pct ≤ 100 → reliability_band pct = some "Reliable (90%+)") := by
  have d1 : (-0.1 : ℚ) < 0 := by norm_num
  have d2 : (74.99 : ℚ) < 75 := by norm_num
  have d3 : (89.99 : ℚ) < 90 := by norm_num
  refine ⟨?_, ?_, ?_⟩
  · intro h74
    rw [reliability_band, if_pos ⟨by linarith, h74⟩]
  · intro h75 h89
    rw [reliability_band, if_neg (by rintro ⟨-, h⟩; linarith),
      if_pos ⟨by linarith, h89⟩]
  · intro h90 h100
    rw [reliability_band, if_neg (by rintro ⟨-, h⟩; linarith),
      if_neg (by rintro ⟨-, h⟩; linarith), if_pos ⟨by linarith, h100⟩]

/-- C2 (witness): the boundary values 75.00 and 90.00 classify as Watch
and Reliable respectively, and 74.99 as Risk. -/
theorem reliability_band_boundary_values :
    reliability_band 75 = some "Watch (75-89%)" ∧
    reliability_band 90 = some "Reliable (90%+)" ∧
    reliability_band 74.99 = some "Risk (<75%)" :=
  ⟨(reliability_band_three_buckets 75 (by norm_num)).2.1 (by norm_num) (by norm_num),
   (reliability_band_three_buckets 90 (by norm_num)).2.2 (by norm_num) (by norm_num),
   (reliability_band_three_buckets 74.99 (by norm_num)).1 (by norm_num)⟩

/-- C3: `reliability_pct` is `on_time / total × 100` for a non-zero
denominator, and is exactly `0` when the denominator is zero or either
cell is missing; the (total) function never produces any other
sentinel. -/
theorem reliability_pct_division_policy (ot tot : ℚ) :
    (tot ≠ 0 → reliability_pct (some ot) (some tot) = ot / tot * 100) ∧
    reliability_pct (some ot) (some 0) = 0 ∧
    reliability_pct (some ot) none = 0 ∧
    reliability_pct none (some tot) = 0 := by
  refine ⟨?_, ?_, ?_, ?_⟩
  · intro ht
    simp [reliability_pct, pdDiv, ht, PVal.replaceInfNan, PVal.fillna0]
  · simp only [reliability_pct, pdDiv, if_pos rfl]
    split_ifs <;> simp [PVal.replaceInfNan, PVal.fillna0]
  · simp [reliability_pct, pdDiv, PVal.replaceInfNan, PVal.fillna0]
  · simp [reliability_pct, pdDiv, PVal.replaceInfNan, PVal.fillna0]

/-- C3 (witness): 18 of 20 gives the exact quotient scaled to percent,
and a zero denominator gives exactly 0. -/
theorem reliability_pct_division_policy_witness :
    reliability_pct (some 18) (some 20) = 18 / 20 * 100 ∧
    reliability_pct (some 7) (some 0) = 0 :=
  ⟨(reliability_pct_division_policy 18 20).1 (by norm_num),
   (reliability_pct_division_policy 7 0).2.1⟩

/-- C9: when deliveries are inconsistent (`total < on_time`, positive
total), the percentage exceeds 100 and `pd.cut` assigns no band at all
(`none`): the classification is not total over engine-produced values. -/
theorem reliability_band_none_above_100 (ot tot : ℚ)
    (h1 : 0 < tot) (h2 : tot < ot) :
    100 < reliability_pct (some ot) (some tot) ∧
    reliability_band (reliability_pct (some ot) (some tot)) = none := by
  have ht : tot ≠ 0 := ne_of_gt h1
  have hq : 1 < ot / tot := (one_lt_div h1).mpr h2
  have hpct : reliability_pct (some ot) (some tot) = ot / tot * 100 := by
    simp [reliability_pct, pdDiv, ht, PVal.replaceInfNan, PVal.fillna0]
  have h100 : 100 < reliability_pct (some ot) (some tot) := by
    rw [hpct]; nlinarith
  refine ⟨h100, ?_⟩
  rw [reliability_band,
    if_neg (by rintro ⟨-, h⟩; linarith),
    if_neg (by rintro ⟨-, h⟩; linarith),
    if_neg (by rintro ⟨-, h⟩; linarith)]

/-- C9 (witness): 25 on-time deliveries out of 20 give a percentage above
100 and no reliability band. -/
theorem reliability_band_none_above_100_witness :
    100 < reliability_pct (some 25) (some 20) ∧
    reliability_band (reliability_pct (some 25) (some 20)) = none :=
  reliability_band_none_above_100 25 20 (by norm_num) (by norm_num)

/-- C4: the code's clip-then-round reorder quantity equals the spec's
`max(0, round(reorder_point − current_stock))`; it is never negative, and
it is `0` whenever the stock already covers the reorder point. -/
theorem reorder_qty_max_round_spec (ltm : List (String × Option ℚ))
    (r : InventoryRow) :
    reorder_qty ltm r =
      max 0 (roundHalfEven (reorder_point ltm r - current_stock_eff r)) ∧
    0 ≤ reorder_qty ltm r ∧
    (reorder_point ltm r ≤ current_stock_eff r → reorder_qty ltm r = 0) := by
  have heq : reorder_qty ltm r =
      max 0 (roundHalfEven (reorder_point ltm r - current_stock_eff r)) := by
    rw [reorder_qty, roundHalfEven_max_zero]
  refine ⟨heq, ?_, ?_⟩
  · rw [heq]; exact le_max_left 0 _
  · intro h
    rw [reorder_qty, max_eq_left (by linarith), roundHalfEven_zero]

/-- C4 (witness): the Flour scenario (stock 50 exactly at its reorder
point of 50) gets quantity 0, satisfying all three parts. -/
theorem reorder_qty_max_round_spec_witness :
    reorder_qty [] invFlour =
      max 0 (roundHalfEven (reorder_point [] invFlour - current_stock_eff invFlour)) ∧
    0 ≤ reorder_qty [] invFlour ∧
    reorder_qty [] invFlour = 0 := by
  obtain ⟨h1, h2, h3⟩ := reorder_qty_max_round_spec [] invFlour
  refine ⟨h1, h2, h3 ?_⟩
  norm_num [reorder_point, current_stock_eff, invFlour, lead_time_eff,
    ltFallback, dictLookup]

/-- C5: the effective lead time follows the three-step fallback chain:
the row's own positive value, else the primary supplier's mapped average
lead time, else the constant 5. -/
theorem lead_time_fallback_chain (ltm : List (String × Option ℚ))
    (r : InventoryRow) :
    (∀ v, r.lead_time_days = some v → 0 < v → lead_time_eff ltm r = v) ∧
    (ltMissing r → ∀ w, dictLookup ltm r.primary_supplier = some (some w) →
      lead_time_eff ltm r = w) ∧
    (ltMissing r → ltUnavailable ltm r → lead_time_eff ltm r = 5) := by
  refine ⟨?_, ?_, ?_⟩
  · intro v hv hpos
    rw [lead_time_eff, hv]
    simp [not_le.mpr hpos]
  · intro hm w hw
    have hfb : ltFallback ltm r.primary_supplier = w := by
      rw [ltFallback, hw]
    rcases hm with hnone | ⟨v, hv, hle⟩
    · rw [lead_time_eff, hnone, hfb]
    · rw [lead_time_eff, hv]
      simp [hle, hfb]
  · intro hm hu
    have hfb : ltFallback ltm r.primary_supplier = 5 := by
      rcases hu with h | h <;> rw [ltFallback, h]
    rcases hm with hnone | ⟨v, hv, hle⟩
    · rw [lead_time_eff, hnone, hfb]
    · rw [lead_time_eff, hv]
      simp [hle, hfb]

/-- C5 (witness): a row with its own lead time 3 keeps it; a row with a
missing cell takes its supplier's mapped 7; a row with a zero cell and no
mapped supplier gets the default 5. -/
theorem lead_time_fallback_chain_witness :
    lead_time_eff [] invOwnLT = 3 ∧
    lead_time_eff [("S", some 7)] invNoLT = 7 ∧
    lead_time_eff [] invZeroLT = 5 :=
  ⟨(lead_time_fallback_chain [] invOwnLT).1 3 rfl (by norm_num),
   (lead_time_fallback_chain [("S", some 7)] invNoLT).2.1 (Or.inl rfl) 7 rfl,
   (lead_time_fallback_chain [] invZeroLT).2.2
     (Or.inr ⟨0, rfl, le_refl 0⟩) (Or.inl rfl)⟩

/-- C6: when stock is below the reorder point the recommendation list
carries the reorder sentence, targeting the primary supplier when the
backup is not strictly more reliable and "{backup} (backup)" when it is;
when stock covers the reorder point the reorder check emits nothing. -/
theorem reorder_sentence_spec (relm : List (String × ℚ))
    (ltm : List (String × Option ℚ)) (r : InventoryRow) :
    (current_stock_eff r < reorder_point ltm r →
      backup_reliability relm r ≤ primary_reliability relm r →
      ("Reorder " ++ toString (reorder_qty ltm r) ++ " units of " ++
        r.material ++ " from " ++ r.primary_supplier ++ ".")
        ∈ recommendList relm ltm r) ∧
    (current_stock_eff r < reorder_point ltm r →
      primary_reliability relm r < backup_reliability relm r →
      ("Reorder " ++ toString (reorder_qty ltm r) ++ " units of " ++
        r.material ++ " from " ++ (r.backup_supplier ++ " (backup)") ++ ".")
        ∈ recommendList relm ltm r) ∧
    (reorder_point ltm r ≤ current_stock_eff r →
      reorderRecs relm ltm r = []) := by
  refine ⟨?_, ?_, ?_⟩
  · intro hcs hble
    simp [recommendList, reorderRecs, if_pos hcs, if_neg (not_lt.mpr hble)]
  · intro hcs hgt
    simp [recommendList, reorderRecs, if_pos hcs, if_pos hgt]
  · intro h
    rw [reorderRecs, if_neg (not_lt.mpr h)]

/-- C6 (witness): a below-reorder-point row with no roster targets its
primary supplier; making the backup more reliable switches the target to
"{backup} (backup)"; the Flour row at its reorder point emits no reorder
sentence. -/
theorem reorder_sentence_spec_witness :
    ("Reorder " ++ toString (reorder_qty [] invLow) ++ " units of " ++
      invLow.material ++ " from " ++ invLow.primary_supplier ++ ".")
      ∈ recommendList [] [] invLow ∧
    ("Reorder " ++ toString (reorder_qty [] invLow) ++ " units of " ++
      invLow.material ++ " from " ++ (invLow.backup_supplier ++ " (backup)") ++ ".")
      ∈ recommendList [("B", 90)] [] invLow ∧
    reorderRecs [] [] invFlour = [] := by
  refine ⟨(reorder_sentence_spec [] [] invLow).1 ?_ ?_,
    (reorder_sentence_spec [("B", 90)] [] invLow).2.1 ?_ ?_,
    (reorder_sentence_spec [] [] invFlour).2.2 ?_⟩
  · norm_num [current_stock_eff, reorder_point, invLow, lead_time_eff,
      ltFallback, dictLookup]
  · simp +decide [primary_reliability, backup_reliability, invLow, dictLookup]
  · norm_num [current_stock_eff, reorder_point, invLow, lead_time_eff,
      ltFallback, dictLookup]
  · simp +decide [primary_reliability, backup_reliability, invLow, dictLookup]
  · norm_num [current_stock_eff, reorder_point, invFlour, lead_time_eff,
      ltFallback, dictLookup]

/-- `stock_risk` takes only the two values of app.py line 93. -/
theorem stock_risk_cases (r : InventoryRow) :
    stock_risk r = "Low Stock" ∨ stock_risk r = "OK" := by
  rcases hr : r.safety_stock with _ | s
  · exact Or.inr (by simp [stock_risk, hr])
  · simp only [stock_risk, hr]
    split_ifs
    · exact Or.inl rfl
    · exact Or.inr rfl

/-- `supply_risk` takes only the two values of app.py line 94. -/
theorem supply_risk_cases (relm : List (String × ℚ)) (r : InventoryRow) :
    supply_risk relm r = "Unreliable Supplier" ∨ supply_risk relm r = "OK" := by
  rw [supply_risk]
  split_ifs
  · exact Or.inl rfl
  · exact Or.inr rfl

/-- C7: `overall_risk` is the Risk label exactly when a sub-risk fires
(and the OK label otherwise); `supply_risk` is Unreliable exactly when
the primary reliability is below 75; `stock_risk` is Low Stock exactly
when stock is below a present safety-stock level. -/
theorem risk_classification_spec (relm : List (String × ℚ)) (r : InventoryRow) :
    (overall_risk relm r = "⚠ Risk" ↔
      (stock_risk r = "Low Stock" ∨ supply_risk relm r = "Unreliable Supplier")) ∧
    (overall_risk relm r ≠ "⚠ Risk" → overall_risk relm r = "✅ OK") ∧
    (supply_risk relm r = "Unreliable Supplier" ↔
      primary_reliability relm r < 75) ∧
    (∀ s, r.safety_stock = some s →
      (stock_risk r = "Low Stock" ↔ current_stock_eff r < s)) := by
  refine ⟨?_, ?_, ?_, ?_⟩
  · rcases stock_risk_cases r with hs | hs <;>
      rcases supply_risk_cases relm r with hp | hp <;>
      simp [overall_risk, hs, hp]
  · intro h
    rw [overall_risk] at h ⊢
    split_ifs at h ⊢ with hc
    · exact absurd rfl h
    · rfl
  · rw [supply_risk]
    split_ifs with h
    · simp [h]
    · simp [h]
  · intro s hs
    simp only [stock_risk, hs]
    split_ifs with h
    · simp [h]
    · simp [h]

/-- C7 (witness): the Sugar row (stock 5 below safety 10, unknown primary
supplier so reliability 0) shows both equivalences at a concrete input. -/
theorem risk_classification_spec_witness :
    (overall_risk [] invLow = "⚠ Risk" ↔
      (stock_risk invLow = "Low Stock" ∨ supply_risk [] invLow = "Unreliable Supplier")) ∧
    (stock_risk invLow = "Low Stock" ↔ current_stock_eff invLow < 10) :=
  ⟨(risk_classification_spec [] invLow).1,
   (risk_classification_spec [] invLow).2.2.2 10 rfl⟩

/-- C10: a stock level 0.3 units below the reorder point makes the
reorder check fire while the quantity rounds to 0, so the engine emits
the sentence "Reorder 0 units of Flour from P.". -/
theorem reorder_zero_units_sentence :
    0 < reorder_point [] invGap - current_stock_eff invGap ∧
    reorder_point [] invGap - current_stock_eff invGap < 1/2 ∧
    current_stock_eff invGap < reorder_point [] invGap ∧
    reorder_qty [] invGap = 0 ∧
    "Reorder 0 units of Flour from P." ∈ recommendList [] [] invGap := by
  refine ⟨?_, ?_, ?_, ?_, ?_⟩
  · norm_num [reorder_point, current_stock_eff, invGap, lead_time_eff,
      ltFallback, dictLookup]
  · norm_num [reorder_point, current_stock_eff, invGap, lead_time_eff,
      ltFallback, dictLookup]
  · norm_num [reorder_point, current_stock_eff, invGap, lead_time_eff,
      ltFallback, dictLookup]
  · norm_num [reorder_qty, roundHalfEven, reorder_point, invGap, lead_time_eff,
      ltFallback, dictLookup, current_stock_eff]
  · norm_num [recommendList, reorderRecs, reliabilityRecs, coverRecs, reorder_qty,
      roundHalfEven, reorder_point, invGap, lead_time_eff, ltFallback, dictLookup,
      current_stock_eff, primary_reliability, backup_reliability, days_of_cover,
      pdDiv, PVal.replaceInfNan, PVal.fillna0, fmt1]
    left
    rfl

/-- C8 (counterexample): with the `priority` column missing from the
supplier table the run is refused, but the surfaced message is the fixed
generic string, which does not contain the missing column's name — no
list of missing columns is reported. -/
theorem schema_error_lacks_column_list :
    validateAndRun
      ["supplier_id", "supplier_name", "total_deliveries", "on_time_deliveries",
       "avg_lead_time_days", "price_index", "is_backup"]
      required_inv_cols [] [] = .error schemaErrorMsg ∧
    containsStr schemaErrorMsg "priority" = false := by
  exact ⟨rfl, by decide⟩

/-- C8 (amended): if any required column is missing from either table the
run is refused before any row is processed and no output is produced —
but the error is the fixed generic message, not a list of the missing
columns. -/
theorem schema_validation_generic_message (supCols invCols : List String)
    (sup : List SupplierRow) (inventory : List InventoryRow)
    (h : (∃ c ∈ required_sup_cols, ¬ supCols.contains c) ∨
         (∃ c ∈ required_inv_cols, ¬ invCols.contains c)) :
    validateAndRun supCols invCols sup inventory = .error schemaErrorMsg := by
  rw [validateAndRun, if_neg]
  intro hall
  rw [Bool.and_eq_true, List.all_eq_true, List.all_eq_true] at hall
  rcases h with ⟨c, hc, hmem⟩ | ⟨c, hc, hmem⟩
  · exact hmem (hall.1 c hc)
  · exact hmem (hall.2 c hc)

/-- C8 (witness): an empty inventory-column list (missing "material" among
others) makes the concrete run refuse with the generic message. -/
theorem schema_validation_generic_message_witness :
    validateAndRun required_sup_cols [] [] [] = .error schemaErrorMsg :=
  schema_validation_generic_message required_sup_cols [] [] []
    (Or.inr ⟨"material", by decide, by decide⟩)
